import Mathlib

/-!
Shallow embedding of the virtual try-on chatbot (app.py): the redis-backed
rate limiter (`RateLimiter.check_limit`), the webhook orchestrator with its
session state machine, the job dispatcher (`ImageProcessor.process_virtual_tryon`)
and the read-only limits endpoint (`check_limits`).

Modelling conventions:
  * Machine time is a `Nat` number of seconds (`datetime.utcnow` and redis TTLs).
  * The redis key `rate_limit:{phone}` is an `Option QuotaEntry`: `none` when the
    key is absent; a stored entry carries the value and the absolute expiry
    instant that `SETEX` installed.  Redis hides an expired key from `GET`, so
    `redisGet` returns `none` once `now` has reached the expiry.
  * The relational store is modelled per identity (every query and mutation in
    the source filters by the `user.id` of the sending phone number, so rows of
    distinct identities never interact): an `IdentityState` holds the `User`
    row, this identity's `Session` rows in insertion order, and the redis entry.
  * SQLAlchemy commit discipline is modelled faithfully: attribute assignments
    in a request are pending until `db.session.commit()`; Flask-SQLAlchemy
    removes the scoped session at request teardown, rolling back whatever was
    not committed.  Each branch of the embedded handler therefore persists
    exactly the fields that the source commits on that path.
  * External effects (twilio downloads, the gradio call, the local file
    existence check) enter as boolean/option oracles in `DispatchEnv`;
    fallibility of the quota store and of the decorator commit at app.py line
    194 enters as the `redisOk` / `dbCommitOk` fields of an `Event`.
  * The lazy `User` creation at lines 186 to 188 never completes in this
    code: a freshly constructed row reads `request_count = None` until flush
    (the column default of 0 applies only at INSERT), so the
    `user.request_count += 1` at line 191 raises an uncaught TypeError and
    the event answers HTTP 500, with the pending insert rolled back at
    teardown and the redis increment from `check_limit` standing.  The
    embedding models this crash; identities whose `User` row already exists
    in the store (rows predating this code) are admitted as seed states of
    the reachability relation.
-/

namespace VirtualTryon

/-- `Config.RATE_LIMIT_DURATION = timedelta(days=1)`, in seconds. -/
def WINDOW : Nat := 86400

/-- `Config.MAX_DAILY_REQUESTS`. -/
def MAX_DAILY_REQUESTS : Nat := 100

/-- The redis value stored under `rate_limit:{phone}` together with the absolute
expiry instant installed by `SETEX`. -/
structure QuotaEntry where
  count : Nat
  expiry : Nat
deriving DecidableEq

/-- `redis_client.get`: an absent or expired key reads as `None`. -/
def redisGet (now : Nat) (q : Option QuotaEntry) : Option Nat :=
  match q with
  | none => none
  | some e => if now < e.expiry then some e.count else none

/-- `pipe.setex(key, RATE_LIMIT_DURATION, v)`: store `v` with expiry
`now + WINDOW`. -/
def redisSetex (now v : Nat) : Option QuotaEntry :=
  some ⟨v, now + WINDOW⟩

/-- `pipe.incr(key)`: increment the stored value, leaving the expiry untouched.
`INCR` on a missing key would create the value 1 with no expiry; that branch is
unreachable from `check_limit`, which only increments a key it has just read. -/
def redisIncr (q : Option QuotaEntry) : Option QuotaEntry :=
  match q with
  | none => some ⟨1, 0⟩
  | some e => some ⟨e.count + 1, e.expiry⟩

/-- `RateLimiter.check_limit` (app.py lines 67 to 88).  Returns the boolean the
source returns (`true` means rate limited) paired with the redis state after the
call.  No entry (or an expired one): `SETEX` value 1, return `False`; value at
least `MAX_DAILY_REQUESTS`: return `True` without touching the store; otherwise
`INCR` and return `False`. -/
def check_limit (now : Nat) (q : Option QuotaEntry) : Bool × Option QuotaEntry :=
  match redisGet now q with
  | none => (false, redisSetex now 1)
  | some current_count =>
    if MAX_DAILY_REQUESTS ≤ current_count then (true, q)
    else (false, redisIncr q)

/-- A sequence of `check_limit` calls at the given instants, counting how many
returned Allowed (`false`) and threading the redis state. -/
def runChecks (q : Option QuotaEntry) : List Nat → Nat × Option QuotaEntry
  | [] => (0, q)
  | t :: ts =>
    let r := check_limit t q
    let rest := runChecks r.2 ts
    ((if r.1 then 0 else 1) + rest.1, rest.2)

theorem runChecks_in_window (E : Nat) :
    ∀ (ts : List Nat) (c : Nat), 1 ≤ c → c ≤ 100 → (∀ t ∈ ts, t < E) →
      runChecks (some ⟨c, E⟩) ts =
        (min ts.length (100 - c), some ⟨min (c + ts.length) 100, E⟩) := by
  intro ts
  induction ts with
  | nil =>
    intro c hc1 hc2 _
    simp [runChecks]
    omega
  | cons t ts ih =>
    intro c hc1 hc2 hw
    have ht : t < E := hw t (List.mem_cons_self t ts)
    have hget : redisGet t (some ⟨c, E⟩) = some c := by
      simp [redisGet, ht]
    have hw2 : ∀ u ∈ ts, u < E := fun u hu => hw u (List.mem_cons_of_mem t hu)
    by_cases hfull : MAX_DAILY_REQUESTS ≤ c
    · have hcfull : c = 100 := by
        simp only [MAX_DAILY_REQUESTS] at hfull
        omega
      subst hcfull
      have hcl : check_limit t (some ⟨100, E⟩) = (true, some ⟨100, E⟩) := by
        simp [check_limit, hget, MAX_DAILY_REQUESTS]
      have hrec := ih 100 hc1 hc2 hw2
      simp [runChecks, hcl, hrec]
    · have hclt : c < 100 := by
        simp only [MAX_DAILY_REQUESTS] at hfull
        omega
      have hcl : check_limit t (some ⟨c, E⟩) = (false, some ⟨c + 1, E⟩) := by
        simp [check_limit, hget, hfull, redisIncr]
      have hrec := ih (c + 1) (by omega) (by omega) hw2
      simp [runChecks, hcl, hrec]
      constructor
      · rcases Nat.le_total ts.length (99 - c) with h | h
        · rw [min_eq_left h, min_eq_left (by omega)]
          omega
        · rw [min_eq_right h, min_eq_right (by omega)]
          omega
      · rw [show c + 1 + ts.length = c + (ts.length + 1) by omega]

/-- C1: in a single window, `check_limit` creates the entry with count 1 and
returns Allowed when no entry exists, increments and returns Allowed while the
count is below 100, and returns Limited without incrementing at 100; hence a
run of N checks from a fresh identity inside one window yields min N 100
Allowed results, a counter of min N 100 (never above 100), and a further check
inside the window is Limited exactly when 100 Allowed results have occurred. -/
theorem check_limit_daily_quota (t0 t' t : Nat) (ts : List Nat)
    (q : Option QuotaEntry) (c : Nat)
    (hw : ∀ u ∈ ts, u < t0 + WINDOW) (ht' : t' < t0 + WINDOW)
    (hq : redisGet t q = some c) :
    runChecks none (t0 :: ts) =
      (min (ts.length + 1) 100, some ⟨min (ts.length + 1) 100, t0 + WINDOW⟩) ∧
    ((check_limit t' (runChecks none (t0 :: ts)).2).1 = true ↔
      100 ≤ (runChecks none (t0 :: ts)).1) ∧
    min (ts.length + 1) 100 ≤ 100 ∧
    check_limit t' none = (false, some ⟨1, t' + WINDOW⟩) ∧
    check_limit t q =
      (if 100 ≤ c then (true, q) else (false, redisIncr q)) := by
  have hfirst : check_limit t0 none = (false, some ⟨1, t0 + WINDOW⟩) := by
    simp [check_limit, redisGet, redisSetex]
  have hrun : runChecks none (t0 :: ts) =
      (min (ts.length + 1) 100, some ⟨min (ts.length + 1) 100, t0 + WINDOW⟩) := by
    have hrest := runChecks_in_window (t0 + WINDOW) ts 1 (by omega) (by omega) hw
    simp [runChecks, hfirst, hrest]
    constructor
    · rcases Nat.le_total ts.length 99 with h | h
      · rw [min_eq_left h, min_eq_left (by omega)]
        omega
      · rw [min_eq_right h, min_eq_right (by omega)]
    · rw [show 1 + ts.length = ts.length + 1 by omega]
  refine ⟨hrun, ?_, by omega, by simp [check_limit, redisGet, redisSetex], ?_⟩
  · rw [hrun]
    have hget : redisGet t' (some ⟨min (ts.length + 1) 100, t0 + WINDOW⟩) =
        some (min (ts.length + 1) 100) := by
      simp [redisGet, ht']
    simp [check_limit, hget, MAX_DAILY_REQUESTS]
    by_cases h : 99 ≤ ts.length <;> simp [h]
  · simp [check_limit, hq, MAX_DAILY_REQUESTS]

theorem check_limit_daily_quota_witness :
    runChecks none (0 :: [1, 2]) =
      (min ([1, 2].length + 1) 100,
        some ⟨min ([1, 2].length + 1) 100, 0 + WINDOW⟩) ∧
    ((check_limit 5 (runChecks none (0 :: [1, 2])).2).1 = true ↔
      100 ≤ (runChecks none (0 :: [1, 2])).1) ∧
    min ([1, 2].length + 1) 100 ≤ 100 ∧
    check_limit 5 none = (false, some ⟨1, 5 + WINDOW⟩) ∧
    check_limit 7 (some ⟨3, 50⟩) =
      (if 100 ≤ 3 then (true, some ⟨3, 50⟩)
       else (false, redisIncr (some ⟨3, 50⟩))) :=
  check_limit_daily_quota 0 5 7 [1, 2] (some ⟨3, 50⟩) 3
    (by decide) (by decide) (by decide)

/-- C4: on an entry created at time T (expiry `T + WINDOW`), a check at time t
resets the window (fresh count 1, new expiry `t + WINDOW`, Allowed) exactly
when `T + WINDOW ≤ t`; before that instant the expiry is left at `T + WINDOW`
by both the Allowed (increment) and the Limited branch, so the window is set
only at creation and never extended. -/
theorem quota_window_reset (T c t : Nat) :
    check_limit t (some ⟨c, T + WINDOW⟩) =
      (if t < T + WINDOW then
        (if 100 ≤ c then (true, some ⟨c, T + WINDOW⟩)
         else (false, some ⟨c + 1, T + WINDOW⟩))
       else (false, some ⟨1, t + WINDOW⟩)) := by
  by_cases ht : t < T + WINDOW
  · have hget : redisGet t (some ⟨c, T + WINDOW⟩) = some c := by
      simp [redisGet, ht]
    by_cases hc : 100 ≤ c
    · simp [check_limit, hget, ht, hc, MAX_DAILY_REQUESTS]
    · simp [check_limit, hget, ht, hc, MAX_DAILY_REQUESTS, redisIncr]
  · have hget : redisGet t (some ⟨c, T + WINDOW⟩) = none := by
      simp [redisGet, ht]
    simp [check_limit, hget, ht, redisSetex]

/-- The `User` row of one identity (app.py lines 46 to 52): creation instant,
last request instant and the monotone lifetime request counter. -/
structure UserRec where
  created_at : Nat
  last_request : Option Nat
  request_count : Nat
deriving DecidableEq

/-- A `Session` row (app.py lines 54 to 61).  `completed_at = none` marks the
active session. -/
structure SessionRec where
  person_image : String
  garment_image : Option String
  result_image : Option String
  created_at : Nat
  completed_at : Option Nat
deriving DecidableEq

/-- The durable rows of one identity: its `User` row, its `Session` rows in
insertion order, and its redis quota key.  Every query and mutation of the
source filters by the `user.id` belonging to the sending phone number, so the
rows of distinct identities never interact and the system state factors into
one such record per identity. -/
structure IdentityState where
  user : Option UserRec
  sessions : List SessionRec
  quota : Option QuotaEntry
deriving DecidableEq

/-- The state of a fresh identity: no `User` row, no `Session` rows, no redis
key. -/
def initState : IdentityState := ⟨none, [], none⟩

/-- Oracles for the external effects of one `process_virtual_tryon` call: the
two twilio downloads, the gradio prediction (`some path` when a non-empty
result arrives, `none` on error or empty result) and the
`os.path.exists` check on the returned path. -/
structure DispatchEnv where
  personDownloadOk : Bool
  garmentDownloadOk : Bool
  gradioResult : Option String
  resultPathExists : Bool
deriving DecidableEq

/-- The locator `ImageProcessor.process_virtual_tryon` returns on success
(app.py line 146): the fixed string built from `Config.NGROK_URL`. -/
def result_locator (ngrok : String) : String := ngrok ++ "/static/result.png"

/-- `ImageProcessor.process_virtual_tryon` (app.py lines 116 to 151).  Returns
the locator handed back to the webhook (or `none` on any failure) paired with
the local path the result image is written to by `cv2.imwrite` (`none` when no
write happens).  Both downloads must succeed, the gradio call must return a
non-empty result, and the returned path must exist; the persisted path is
always `static/result.png` and the locator is always
`NGROK_URL ++ "/static/result.png"`, independent of the input image
references. -/
def process_virtual_tryon (env : DispatchEnv) (ngrok : String)
    (person_image_url garment_image_url : String) :
    Option String × Option String :=
  if env.personDownloadOk && env.garmentDownloadOk then
    match env.gradioResult with
    | some _ =>
      if env.resultPathExists then
        (some (result_locator ngrok), some "static/result.png")
      else (none, none)
    | none => (none, none)
  else (none, none)

/-- The reply produced for one inbound webhook call, one constructor per
terminal branch of the source. -/
inductive Reply
  /-- line 230: asks for the garment image after creating a session -/
  | askGarment
  /-- line 246: the try-on succeeded -/
  | trySuccess
  /-- line 248: the dispatcher failed -/
  | tryFailure
  /-- line 254: a new session was started over a garment-bearing active one -/
  | newSession
  /-- line 214: no media reference in the event -/
  | noMedia
  /-- line 181: rate limited, HTTP 429 -/
  | rateLimited
  /-- an exception from the quota store escapes the decorator, HTTP 500 -/
  | storeFault
  /-- line 191 raised TypeError: `request_count` on a freshly constructed
  `User` row reads None until flush, so `+= 1` fails and escapes as
  HTTP 500 -/
  | typeFault
  /-- line 218 raised: no User row exists when user.id is read, HTTP 500
  (unreachable through the decorator, which crashes earlier on a fresh
  identity) -/
  | userRowMissing
deriving DecidableEq

/-- One inbound webhook event for this identity: its arrival instant, its
optional media reference, the dispatcher oracles, and fault switches for the
quota store (the redis read at line 72) and for the decorator commit at
line 194. -/
structure Event where
  now : Nat
  mediaUrl : Option String
  env : DispatchEnv
  redisOk : Bool
  dbCommitOk : Bool
deriving DecidableEq

/-- The `User` mutation of the decorator (app.py lines 190 to 191) on an
EXISTING row: set `last_request` and bump `request_count`.  On a freshly
constructed row the same line crashes instead — see `handleEvent`. -/
def touchUser (u : UserRec) (now : Nat) : UserRec :=
  { u with last_request := some now, request_count := u.request_count + 1 }

/-- The active-session query at lines 219 to 222: the first session row, in
insertion order, with a null completion timestamp. -/
def firstActive : List SessionRec → Option SessionRec
  | [] => none
  | s :: ss => if s.completed_at = none then some s else firstActive ss

/-- Commit the success-branch mutation of the webhook (lines 233, 241, 242,
243) into the first active row: garment, result and completion are persisted
together by the one `db.session.commit()` of that branch. -/
def completeFirstActive (garment loc : String) (now : Nat) :
    List SessionRec → List SessionRec
  | [] => []
  | s :: ss =>
    if s.completed_at = none then
      { s with garment_image := some garment,
               result_image := some loc,
               completed_at := some now } :: ss
    else s :: completeFirstActive garment loc now ss

/-- The body of the `webhook` route (app.py lines 209 to 256), acting on the
state left by the decorator.  SQLAlchemy discipline: only assignments covered
by a `db.session.commit()` on the taken path survive the request (the scoped
session is rolled back at teardown), so the dispatcher-failure branch — which
assigns `garment_image` at line 233 but never commits — leaves the stored rows
unchanged. -/
def webhook_body (ngrok : String) (st : IdentityState) (e : Event) :
    IdentityState × Reply :=
  match e.mediaUrl with
  | none => (st, .noMedia)
  | some media_url =>
    match st.user with
    | none => (st, .userRowMissing)
    | some _ =>
      match firstActive st.sessions with
      | none =>
        ({ st with sessions :=
            st.sessions ++ [⟨media_url, none, none, e.now, none⟩] },
         .askGarment)
      | some active_session =>
        if active_session.garment_image = none then
          match (process_virtual_tryon e.env ngrok
              active_session.person_image media_url).1 with
          | some try_on_result =>
            ({ st with sessions :=
                (completeFirstActive media_url try_on_result e.now
                  st.sessions) }, .trySuccess)
          | none => (st, .tryFailure)
        else
          ({ st with sessions :=
              st.sessions ++ [⟨media_url, none, none, e.now, none⟩] },
           .newSession)

/-- One full inbound event: the `rate_limit` decorator (app.py lines 172 to
200) followed by the `webhook` body.  A quota-store exception escapes
undecorated (HTTP 500).  A rate-limited event returns 429 before the `User`
row is touched.  When no `User` row exists, lines 186 to 188 construct a
pending row whose `request_count` is still None (the column default applies
only at flush), so `user.request_count += 1` at line 191 raises TypeError —
escaping the decorator as HTTP 500, with the pending insert rolled back at
teardown and the redis write from `check_limit` already committed.  On an
existing row the update is committed — or, when that commit fails, rolled
back and execution continues into the body, exactly as the `try/except` at
lines 193 to 197 does. -/
def handleEvent (ngrok : String) (st : IdentityState) (e : Event) :
    IdentityState × Reply :=
  if e.redisOk then
    let r := check_limit e.now st.quota
    if r.1 then (st, .rateLimited)
    else
      match st.user with
      | none => ({ st with quota := r.2 }, .typeFault)
      | some u =>
        let st' : IdentityState :=
          if e.dbCommitOk then
            { st with quota := r.2, user := some (touchUser u e.now) }
          else
            { st with quota := r.2 }
        webhook_body ngrok st' e
  else (st, .storeFault)

/-- A `DispatchEnv` in which every external step succeeds. -/
def okEnv : DispatchEnv := ⟨true, true, some "tryon_output.png", true⟩

/-- A `DispatchEnv` in which the gradio call fails, so the dispatcher returns
no result. -/
def failEnv : DispatchEnv := ⟨true, true, none, true⟩

/-- An ordinary inbound image event: media present, stores healthy. -/
def evImage (t : Nat) (m : String) (env : DispatchEnv) : Event :=
  ⟨t, some m, env, true, true⟩

/-- The NGROK base URL used by the concrete runs below. -/
def ngrokURL : String := "https://ng.example"

/-- C5: the claimed fresh-identity two-image flow never happens in the code.
The first inbound image event of an identity with no `User` row crashes in
the decorator — the freshly constructed row has `request_count = None` until
flush, so the `+= 1` at line 191 raises TypeError — and the event returns
HTTP 500 with the quota already consumed, no `User` row committed and no
session created; the ask-for-garment reply is never sent. -/
theorem fresh_identity_first_event_crashes :
    handleEvent ngrokURL initState (evImage 0 "mediaA" okEnv) =
      ({ initState with quota := some ⟨1, WINDOW⟩ }, .typeFault) ∧
    (handleEvent ngrokURL initState (evImage 0 "mediaA" okEnv)).1.user =
      none ∧
    (handleEvent ngrokURL initState (evImage 0 "mediaA" okEnv)).1.sessions =
      [] := by
  refine ⟨?_, ?_, ?_⟩ <;> decide

/-- Number of session rows of this identity with a null completion
timestamp. -/
def activeCount (ss : List SessionRec) : Nat :=
  ss.countP (fun s => s.completed_at.isNone)

theorem firstActive_eq_none {ss : List SessionRec}
    (h : firstActive ss = none) : ∀ s ∈ ss, s.completed_at ≠ none := by
  induction ss with
  | nil => simp
  | cons s ss ih =>
    intro u hu
    by_cases hs : s.completed_at = none
    · simp [firstActive, hs] at h
    · simp [firstActive, hs] at h
      rcases List.mem_cons.mp hu with h1 | h1
      · subst h1; exact hs
      · exact ih h u h1

theorem firstActive_is_active {ss : List SessionRec} {s : SessionRec}
    (h : firstActive ss = some s) : s ∈ ss ∧ s.completed_at = none := by
  induction ss with
  | nil => simp [firstActive] at h
  | cons u ss ih =>
    by_cases hu : u.completed_at = none
    · simp [firstActive, hu] at h
      subst h
      exact ⟨List.mem_cons_self u ss, hu⟩
    · simp [firstActive, hu] at h
      rcases ih h with ⟨h1, h2⟩
      exact ⟨List.mem_cons_of_mem u h1, h2⟩

theorem activeCount_eq_zero {ss : List SessionRec}
    (h : ∀ s ∈ ss, s.completed_at ≠ none) : activeCount ss = 0 := by
  induction ss with
  | nil => rfl
  | cons s ss ih =>
    have hs := h s (List.mem_cons_self s ss)
    have hrest := ih (fun u hu => h u (List.mem_cons_of_mem s hu))
    have hfalse : s.completed_at.isNone = false := by
      rw [Bool.eq_false_iff]
      intro hh
      exact hs (Option.isNone_iff_eq_none.mp hh)
    simp only [activeCount, List.countP_cons] at hrest ⊢
    simp [hfalse, hrest]

theorem activeCount_append_one (ss : List SessionRec) (t : SessionRec)
    (ht : t.completed_at = none) :
    activeCount (ss ++ [t]) = activeCount ss + 1 := by
  simp [activeCount, List.countP_append, List.countP_cons, ht]

theorem mem_completeFirstActive {g l : String} {n : Nat}
    {ss : List SessionRec} {t : SessionRec}
    (h : t ∈ completeFirstActive g l n ss) :
    t ∈ ss ∨ ∃ s ∈ ss, s.completed_at = none ∧
      t = { s with garment_image := some g, result_image := some l,
                   completed_at := some n } := by
  induction ss with
  | nil => simp [completeFirstActive] at h
  | cons s ss ih =>
    by_cases hs : s.completed_at = none
    · simp only [completeFirstActive, hs, if_true, List.mem_cons] at h
      rcases h with h | h
      · exact Or.inr ⟨s, List.mem_cons_self s ss, hs, h⟩
      · exact Or.inl (List.mem_cons_of_mem s h)
    · simp only [completeFirstActive, hs, if_false, List.mem_cons] at h
      rcases h with h | h
      · exact Or.inl (h ▸ List.mem_cons_self s ss)
      · rcases ih h with h1 | ⟨u, hu, hc, he⟩
        · exact Or.inl (List.mem_cons_of_mem s h1)
        · exact Or.inr ⟨u, List.mem_cons_of_mem s hu, hc, he⟩

theorem activeCount_completeFirstActive (g l : String) (n : Nat) :
    ∀ ss : List SessionRec,
      activeCount (completeFirstActive g l n ss) ≤ activeCount ss := by
  intro ss
  induction ss with
  | nil => simp [completeFirstActive]
  | cons s ss ih =>
    by_cases hs : s.completed_at = none
    · simp [completeFirstActive, hs, activeCount, List.countP_cons]
    · simp [completeFirstActive, hs, activeCount, List.countP_cons] at *
      omega

/-- The invariant maintained on the session rows of one identity: at most one
active row; an active row never carries a garment or a result; a completed row
always carries the fixed result locator. -/
def GoodSessions (ngrok : String) (ss : List SessionRec) : Prop :=
  activeCount ss ≤ 1 ∧
  (∀ s ∈ ss, s.completed_at = none →
    s.garment_image = none ∧ s.result_image = none) ∧
  (∀ s ∈ ss, s.completed_at ≠ none →
    s.result_image = some (result_locator ngrok))

theorem process_virtual_tryon_success {env : DispatchEnv} {ngrok p g r : String}
    (h : (process_virtual_tryon env ngrok p g).1 = some r) :
    r = result_locator ngrok ∧
    (process_virtual_tryon env ngrok p g).2 = some "static/result.png" := by
  obtain ⟨pd, gd, gr, pe⟩ := env
  cases pd <;> cases gd <;> cases pe <;> cases gr <;>
    simp_all [process_virtual_tryon]

theorem webhook_body_good (ngrok : String) (st : IdentityState) (e : Event)
    (h : GoodSessions ngrok st.sessions) :
    GoodSessions ngrok (webhook_body ngrok st e).1.sessions := by
  obtain ⟨hcount, hactive, hdone⟩ := h
  unfold webhook_body
  cases hm : e.mediaUrl with
  | none => exact ⟨hcount, hactive, hdone⟩
  | some media_url =>
    cases hu : st.user with
    | none => exact ⟨hcount, hactive, hdone⟩
    | some u =>
      cases hfa : firstActive st.sessions with
      | none =>
        have hzero : activeCount st.sessions = 0 :=
          activeCount_eq_zero (firstActive_eq_none hfa)
        refine ⟨?_, ?_, ?_⟩
        · rw [activeCount_append_one st.sessions _ rfl, hzero]
        · intro s hs hc
          rcases List.mem_append.mp hs with h1 | h1
          · exact absurd hc (firstActive_eq_none hfa s h1)
          · simp at h1
            subst h1
            exact ⟨rfl, rfl⟩
        · intro s hs hc
          rcases List.mem_append.mp hs with h1 | h1
          · exact hdone s h1 hc
          · simp at h1
            subst h1
            simp at hc
      | some active_session =>
        obtain ⟨hmem, hact⟩ := firstActive_is_active hfa
        have hg : active_session.garment_image = none :=
          (hactive active_session hmem hact).1
        simp only [hg, if_true]
        cases hp : (process_virtual_tryon e.env ngrok
            active_session.person_image media_url).1 with
        | none => exact ⟨hcount, hactive, hdone⟩
        | some try_on_result =>
          obtain ⟨hloc, _⟩ := process_virtual_tryon_success hp
          subst hloc
          refine ⟨?_, ?_, ?_⟩
          · exact le_trans
              (activeCount_completeFirstActive _ _ _ st.sessions) hcount
          · intro s hs hc
            rcases mem_completeFirstActive hs with h1 | ⟨v, _, _, he⟩
            · exact hactive s h1 hc
            · subst he
              simp at hc
          · intro s hs hc
            rcases mem_completeFirstActive hs with h1 | ⟨v, _, _, he⟩
            · exact hdone s h1 hc
            · subst he
              rfl

theorem handleEvent_good (ngrok : String) (st : IdentityState) (e : Event)
    (h : GoodSessions ngrok st.sessions) :
    GoodSessions ngrok (handleEvent ngrok st e).1.sessions := by
  unfold handleEvent
  by_cases hr : e.redisOk
  · simp only [hr, if_true]
    by_cases hl : (check_limit e.now st.quota).1
    · simp only [hl, if_true]
      exact h
    · simp only [hl, if_false]
      cases hu : st.user with
      | none => exact h
      | some u =>
        by_cases hc : e.dbCommitOk
        · simp only [hc, if_true]
          exact webhook_body_good ngrok _ e h
        · simp only [hc, if_false]
          exact webhook_body_good ngrok _ e h
  · simp only [hr, if_false]
    exact h

/-- The states of one identity reachable by inbound webhook events processed
one at a time, starting either from a fresh identity or from an identity
whose `User` row already exists in the durable store with no session rows.
The seed states are needed because this code itself never commits a fresh
`User` row — its creation path crashes at line 191 before the commit — so
all session activity presupposes a row that predates this code. -/
inductive Reachable (ngrok : String) : IdentityState → Prop
  | init : Reachable ngrok initState
  | seed (u : UserRec) (q : Option QuotaEntry) :
      Reachable ngrok ⟨some u, [], q⟩
  | step (st : IdentityState) (e : Event) (h : Reachable ngrok st) :
      Reachable ngrok (handleEvent ngrok st e).1

theorem reachable_good {ngrok : String} {st : IdentityState}
    (h : Reachable ngrok st) : GoodSessions ngrok st.sessions := by
  induction h with
  | init =>
    refine ⟨by simp [initState, activeCount], ?_, ?_⟩ <;>
      simp [initState]
  | seed u q =>
    refine ⟨by simp [activeCount], ?_, ?_⟩ <;> simp
  | step st e _ ih => exact handleEvent_good ngrok st e ih

/-- C2: in every reachable state, the number of session rows of an identity
with a null completion timestamp is 0 or 1, and every branch of the event
handler — the session-creating branch, the completing branch, the
dispatcher-failure branch, the validation and limiter rejections — preserves
this. -/
theorem at_most_one_active_session (ngrok : String) (st : IdentityState)
    (h : Reachable ngrok st) :
    activeCount st.sessions = 0 ∨ activeCount st.sessions = 1 := by
  have := (reachable_good h).1
  omega

/-- A `User` row that already exists in the durable store before the events
below (this code never commits one itself; see `Reachable`). -/
def seedUser : UserRec := ⟨0, none, 0⟩

/-- An identity whose `User` row pre-exists, with no sessions and no quota
key. -/
def stU : IdentityState := ⟨some seedUser, [], none⟩

/-- State of that identity after one inbound image event. -/
def stA : IdentityState :=
  (handleEvent ngrokURL stU (evImage 0 "mediaA" okEnv)).1

/-- State after a second image event with the dispatcher succeeding: one
completed session. -/
def stAB : IdentityState :=
  (handleEvent ngrokURL stA (evImage 1 "mediaB" okEnv)).1

theorem stU_reachable : Reachable ngrokURL stU :=
  Reachable.seed seedUser none

theorem stA_reachable : Reachable ngrokURL stA :=
  Reachable.step stU (evImage 0 "mediaA" okEnv) stU_reachable

theorem stAB_reachable : Reachable ngrokURL stAB :=
  Reachable.step stA (evImage 1 "mediaB" okEnv) stA_reachable

theorem at_most_one_active_session_witness :
    activeCount stAB.sessions = 0 ∨ activeCount stAB.sessions = 1 :=
  at_most_one_active_session ngrokURL stAB stAB_reachable

/-- C10: every successful dispatcher run returns the one locator
`NGROK_URL ++ "/static/result.png"` and writes the file `static/result.png`,
whatever the identity or input images were; consequently any two successful
runs return the same locator and overwrite the same stored file, and in every
reachable state every completed session carries that same locator as its
result image. -/
theorem result_image_is_global_constant (env env2 : DispatchEnv)
    (ngrok p g p2 g2 r r2 : String) (st : IdentityState) (s : SessionRec)
    (h : (process_virtual_tryon env ngrok p g).1 = some r)
    (h2 : (process_virtual_tryon env2 ngrok p2 g2).1 = some r2)
    (hst : Reachable ngrok st) (hs : s ∈ st.sessions)
    (hc : s.completed_at ≠ none) :
    r = result_locator ngrok ∧ r2 = r ∧
    (process_virtual_tryon env ngrok p g).2 = some "static/result.png" ∧
    (process_virtual_tryon env2 ngrok p2 g2).2 = some "static/result.png" ∧
    s.result_image = some (result_locator ngrok) := by
  obtain ⟨e1, w1⟩ := process_virtual_tryon_success h
  obtain ⟨e2, w2⟩ := process_virtual_tryon_success h2
  exact ⟨e1, by rw [e1, e2], w1, w2, (reachable_good hst).2.2 s hs hc⟩

theorem result_image_is_global_constant_witness :
    "https://ng.example/static/result.png" = result_locator ngrokURL ∧
    "https://ng.example/static/result.png" =
      "https://ng.example/static/result.png" ∧
    (process_virtual_tryon okEnv ngrokURL "p" "g").2 =
      some "static/result.png" ∧
    (process_virtual_tryon okEnv ngrokURL "p2" "g2").2 =
      some "static/result.png" ∧
    (⟨"mediaA", some "mediaB", some (result_locator ngrokURL), 0,
        some 1⟩ : SessionRec).result_image =
      some (result_locator ngrokURL) :=
  result_image_is_global_constant okEnv okEnv ngrokURL "p" "g" "p2" "g2"
    "https://ng.example/static/result.png" "https://ng.example/static/result.png"
    stAB ⟨"mediaA", some "mediaB", some (result_locator ngrokURL), 0, some 1⟩
    (by decide) (by decide) stAB_reachable (by decide) (by decide)

theorem length_completeFirstActive (g l : String) (n : Nat) :
    ∀ ss : List SessionRec, (completeFirstActive g l n ss).length = ss.length := by
  intro ss
  induction ss with
  | nil => rfl
  | cons s ss ih =>
    by_cases hs : s.completed_at = none <;>
      simp [completeFirstActive, hs, ih]

/-- An identity with an existing `User` row, one active garment-less session
and a part-used quota window: the kind of state from which the
dispatcher-failure scenario of the claim plays out. -/
def c3_state : IdentityState :=
  ⟨some ⟨0, some 5, 3⟩, [⟨"personA", none, none, 0, none⟩],
   some ⟨2, WINDOW⟩⟩

/-- An image event on which the dispatcher fails. -/
def c3_failEvent : Event := ⟨10, some "garmentB", failEnv, true, true⟩

/-- A later image event with a healthy dispatcher. -/
def c3_okEvent : Event := ⟨20, some "imageC", okEnv, true, true⟩

/-- State after the dispatcher-failure event from `c3_state`. -/
def stAF : IdentityState := (handleEvent ngrokURL c3_state c3_failEvent).1

/-- Result of the further image event after the failed one. -/
def runAfterFailure : IdentityState × Reply :=
  handleEvent ngrokURL stAF c3_okEvent

/-- C3 counterexample: after a dispatcher failure the stored session still has
`garment_image = none` — the assignment at line 233 is never committed on the
failure path (the only commit of that branch is on the success path), and the
rolled-back request leaves the row as it was — so the next inbound image
event does NOT create a brand-new session: it takes the garment-missing
branch of the same session, records the new media as that session's garment,
and completes it, person-image staying the original one. -/
theorem dispatcher_failure_counterexample :
    (handleEvent ngrokURL c3_state c3_failEvent).2 = .tryFailure ∧
    stAF.sessions = [⟨"personA", none, none, 0, none⟩] ∧
    runAfterFailure.2 = .trySuccess ∧
    runAfterFailure.1.sessions =
      [⟨"personA", some "imageC", some (result_locator ngrokURL), 0,
        some 20⟩] ∧
    runAfterFailure.1.sessions.length = 1 := by
  refine ⟨?_, ?_, ?_, ?_, ?_⟩ <;> decide

/-- C3 amended: a dispatcher failure after the garment image was assigned
leaves the active session persisted with garment-image null (the assignment is
not committed and is rolled back at request teardown), result null and
completed null; the next inbound image event for that identity resumes that
same session — its garment-image becomes the new media reference and the
dispatcher runs on (old person-image, new media) — rather than creating a new
session. -/
theorem dispatcher_failure_resumes_session (ngrok m m2 r : String)
    (st : IdentityState) (e e2 : Event) (s : SessionRec) (u : UserRec)
    (hu : st.user = some u)
    (hr : e.redisOk = true) (hl : (check_limit e.now st.quota).1 = false)
    (hcmt : e.dbCommitOk = true) (hm : e.mediaUrl = some m)
    (hfa : firstActive st.sessions = some s) (hg : s.garment_image = none)
    (hfail : (process_virtual_tryon e.env ngrok s.person_image m).1 = none)
    (hr2 : e2.redisOk = true)
    (hl2 : (check_limit e2.now (check_limit e.now st.quota).2).1 = false)
    (hcmt2 : e2.dbCommitOk = true) (hm2 : e2.mediaUrl = some m2)
    (hok : (process_virtual_tryon e2.env ngrok s.person_image m2).1 = some r) :
    handleEvent ngrok st e =
      ({ st with quota := (check_limit e.now st.quota).2,
                 user := some (touchUser u e.now) }, .tryFailure) ∧
    (handleEvent ngrok (handleEvent ngrok st e).1 e2).2 = .trySuccess ∧
    (handleEvent ngrok (handleEvent ngrok st e).1 e2).1.sessions =
      completeFirstActive m2 r e2.now st.sessions ∧
    (handleEvent ngrok (handleEvent ngrok st e).1 e2).1.sessions.length =
      st.sessions.length := by
  have h1 : handleEvent ngrok st e =
      ({ st with quota := (check_limit e.now st.quota).2,
                 user := some (touchUser u e.now) }, .tryFailure) := by
    simp [handleEvent, hr, hl, hcmt, hu, webhook_body, hm, hfa, hg, hfail]
  have h2 : handleEvent ngrok (handleEvent ngrok st e).1 e2 =
      ({ st with quota := (check_limit e2.now (check_limit e.now st.quota).2).2,
                 user := some (touchUser (touchUser u e.now) e2.now),
                 sessions := completeFirstActive m2 r e2.now st.sessions },
       .trySuccess) := by
    rw [h1]
    simp [handleEvent, hr2, hl2, hcmt2, webhook_body, hm2, hfa, hg, hok]
  refine ⟨h1, ?_, ?_, ?_⟩ <;> rw [h2] <;>
    simp [length_completeFirstActive]

theorem dispatcher_failure_resumes_session_witness :
    handleEvent ngrokURL c3_state c3_failEvent =
      ({ c3_state with quota := (check_limit 10 c3_state.quota).2,
                       user := some (touchUser ⟨0, some 5, 3⟩ 10) },
       .tryFailure) ∧
    (handleEvent ngrokURL (handleEvent ngrokURL c3_state c3_failEvent).1
        c3_okEvent).2 = .trySuccess ∧
    (handleEvent ngrokURL (handleEvent ngrokURL c3_state c3_failEvent).1
        c3_okEvent).1.sessions =
      completeFirstActive "imageC" (result_locator ngrokURL) 20
        c3_state.sessions ∧
    (handleEvent ngrokURL (handleEvent ngrokURL c3_state c3_failEvent).1
        c3_okEvent).1.sessions.length =
      c3_state.sessions.length :=
  dispatcher_failure_resumes_session ngrokURL "garmentB" "imageC"
    (result_locator ngrokURL) c3_state c3_failEvent c3_okEvent
    ⟨"personA", none, none, 0, none⟩ ⟨0, some 5, 3⟩
    rfl rfl (by decide) rfl rfl (by decide) rfl (by decide) rfl (by decide)
    rfl rfl (by decide)

theorem check_limit_allowed_consumes (now : Nat) (q : Option QuotaEntry)
    (h : (check_limit now q).1 = false) :
    (redisGet now (check_limit now q).2).getD 0 =
      (redisGet now q).getD 0 + 1 := by
  cases hg : redisGet now q with
  | none =>
    have hnow : now < now + WINDOW := by simp [WINDOW]
    simp only [check_limit, hg]
    simp [redisSetex, redisGet, hnow]
  | some c =>
    by_cases hc : MAX_DAILY_REQUESTS ≤ c
    · simp [check_limit, hg, hc] at h
    · cases q with
      | none => simp [redisGet] at hg
      | some entry =>
        by_cases hexp : now < entry.expiry
        · simp [redisGet, hexp] at hg
          simp [check_limit, redisGet, hexp, hg, hc, redisIncr]
        · simp [redisGet, hexp] at hg

/-- C6 counterexample: a media-less inbound event from a fresh identity also
consumes the quota slot before media validation, but it is answered by the
line-191 crash (HTTP 500), not by the validation-failure reply, and the
`User` update is lost with it. -/
theorem no_media_fresh_identity_counterexample :
    handleEvent ngrokURL initState (⟨5, none, okEnv, true, true⟩ : Event) =
      ({ initState with quota := some ⟨1, 5 + WINDOW⟩ }, .typeFault) ∧
    (handleEvent ngrokURL initState
        (⟨5, none, okEnv, true, true⟩ : Event)).2 ≠ .noMedia := by
  refine ⟨?_, ?_⟩ <;> decide

/-- C6 amended: on an event that carries no media reference (and is not rate
limited), the limiter check and its quota increment always run before the
media-presence validation — the count visible in redis grows by one and is
never rolled back, and no session is touched.  For an identity with an
existing `User` row the event is then answered with the validation-failure
reply, the `User` row updated when the decorator commit succeeds; for a fresh
identity the decorator instead crashes at line 191 (HTTP 500) before media
validation is ever reached, with the quota increment still standing. -/
theorem no_media_still_consumes_quota (ngrok : String) (st : IdentityState)
    (e : Event) (hm : e.mediaUrl = none) (hr : e.redisOk = true)
    (hl : (check_limit e.now st.quota).1 = false) :
    handleEvent ngrok st e =
      (match st.user with
       | some u =>
         ({ st with quota := (check_limit e.now st.quota).2,
                    user := if e.dbCommitOk then some (touchUser u e.now)
                            else st.user },
          Reply.noMedia)
       | none =>
         ({ st with quota := (check_limit e.now st.quota).2 },
          Reply.typeFault)) ∧
    (redisGet e.now (handleEvent ngrok st e).1.quota).getD 0 =
      (redisGet e.now st.quota).getD 0 + 1 ∧
    (handleEvent ngrok st e).1.sessions = st.sessions := by
  have h1 : handleEvent ngrok st e =
      (match st.user with
       | some u =>
         ({ st with quota := (check_limit e.now st.quota).2,
                    user := if e.dbCommitOk then some (touchUser u e.now)
                            else st.user },
          Reply.noMedia)
       | none =>
         ({ st with quota := (check_limit e.now st.quota).2 },
          Reply.typeFault)) := by
    cases hu : st.user with
    | none => simp [handleEvent, hr, hl, hu]
    | some u =>
      by_cases hc : e.dbCommitOk <;>
        simp [handleEvent, hr, hl, hu, hc, webhook_body, hm]
  refine ⟨h1, ?_, ?_⟩ <;> rw [h1]
  · cases hu : st.user <;>
      exact check_limit_allowed_consumes e.now st.quota hl
  · cases hu : st.user <;> rfl

theorem no_media_still_consumes_quota_witness :
    handleEvent ngrokURL c3_state (⟨5, none, okEnv, true, true⟩ : Event) =
      ({ c3_state with quota := (check_limit 5 c3_state.quota).2,
                       user := some (touchUser ⟨0, some 5, 3⟩ 5) },
       .noMedia) ∧
    (redisGet 5 (handleEvent ngrokURL c3_state
        (⟨5, none, okEnv, true, true⟩ : Event)).1.quota).getD 0 =
      (redisGet 5 c3_state.quota).getD 0 + 1 ∧
    (handleEvent ngrokURL c3_state
        (⟨5, none, okEnv, true, true⟩ : Event)).1.sessions =
      c3_state.sessions :=
  no_media_still_consumes_quota ngrokURL c3_state
    ⟨5, none, okEnv, true, true⟩ rfl rfl (by decide)

/-- An identity with an existing `User` row and a part-used quota window. -/
def c7_state : IdentityState := ⟨some ⟨0, some 5, 3⟩, [], some ⟨2, 1000⟩⟩

/-- An image event during which the decorator commit at line 194 fails. -/
def c7_event : Event := ⟨10, some "imgX", okEnv, true, false⟩

/-- C7 counterexample: when the session repository fails at the decorator
commit, processing does not abort and the event is not rejected — the
exception is caught at lines 195 to 197, the `User` update is rolled back,
and the handler continues into the webhook body, committing a new session and
answering with the normal ask-for-garment reply while the redis quota
increment (committed before the fault) stands. -/
theorem store_fault_swallowed_counterexample :
    (handleEvent ngrokURL c7_state c7_event).2 = .askGarment ∧
    (handleEvent ngrokURL c7_state c7_event).1.sessions =
      [⟨"imgX", none, none, 10, none⟩] ∧
    (handleEvent ngrokURL c7_state c7_event).1.quota = some ⟨3, 1000⟩ ∧
    (handleEvent ngrokURL c7_state c7_event).1.user = some ⟨0, some 5, 3⟩ := by
  refine ⟨?_, ?_, ?_, ?_⟩ <;> decide

theorem webhook_body_user (ngrok : String) (st : IdentityState) (e : Event) :
    (webhook_body ngrok st e).1.user = st.user := by
  unfold webhook_body
  cases hm : e.mediaUrl with
  | none => rfl
  | some m =>
    cases hu : st.user with
    | none => exact hu
    | some u =>
      cases hfa : firstActive st.sessions with
      | none => rfl
      | some s =>
        by_cases hg : s.garment_image = none
        · simp only [hg, if_true]
          cases hp : (process_virtual_tryon e.env ngrok s.person_image m).1 with
          | none => exact hu
          | some r => rfl
        · simp only [hg, if_false]

/-- C7 amended: a quota-store fault does abort the event before any mutation
(the exception escapes as a hard 500 with the state unchanged), but a
session-repository fault at the decorator commit on an identity with an
existing `User` row is caught and rolled back and processing silently
continues into the webhook body with the redis quota already consumed and the
`User` update lost (on a fresh identity the decorator crashes at line 191
before reaching the commit, likewise with the quota already consumed). -/
theorem store_fault_amended (ngrok : String) (st : IdentityState) (e : Event) :
    (e.redisOk = false → handleEvent ngrok st e = (st, .storeFault)) ∧
    (e.redisOk = true → (check_limit e.now st.quota).1 = false →
      e.dbCommitOk = false →
      handleEvent ngrok st e =
        (match st.user with
         | some _ =>
           webhook_body ngrok
             { st with quota := (check_limit e.now st.quota).2 } e
         | none =>
           ({ st with quota := (check_limit e.now st.quota).2 },
            Reply.typeFault)) ∧
      (handleEvent ngrok st e).1.user = st.user) := by
  constructor
  · intro hr
    simp [handleEvent, hr]
  · intro hr hl hc
    have h1 : handleEvent ngrok st e =
        (match st.user with
         | some _ =>
           webhook_body ngrok
             { st with quota := (check_limit e.now st.quota).2 } e
         | none =>
           ({ st with quota := (check_limit e.now st.quota).2 },
            Reply.typeFault)) := by
      cases hu : st.user with
      | none => simp [handleEvent, hr, hl, hu]
      | some u => simp [handleEvent, hr, hl, hc, hu]
    refine ⟨h1, ?_⟩
    rw [h1]
    cases hu : st.user with
    | none => rfl
    | some u => rw [webhook_body_user]

theorem store_fault_amended_witness :
    handleEvent ngrokURL c7_state (⟨10, some "imgX", okEnv, false, true⟩ : Event) =
      (c7_state, .storeFault) ∧
    handleEvent ngrokURL c7_state c7_event =
      webhook_body ngrokURL
        { c7_state with quota := (check_limit 10 c7_state.quota).2 } c7_event ∧
    (handleEvent ngrokURL c7_state c7_event).1.user = c7_state.user :=
  ⟨(store_fault_amended ngrokURL c7_state
      ⟨10, some "imgX", okEnv, false, true⟩).1 rfl,
   (store_fault_amended ngrokURL c7_state c7_event).2 rfl (by decide) rfl⟩

/-- `ttl` of the quota key (`redis_client.ttl` at line 261): remaining seconds
while the key lives, -2 when absent or expired. -/
def redisTTL (now : Nat) (q : Option QuotaEntry) : Int :=
  match q with
  | none => -2
  | some e => if now < e.expiry then (e.expiry : Int) - (now : Int) else -2

/-- The JSON object the `check_limits` route returns (app.py lines 264 to
271). -/
structure LimitStatus where
  daily_requests_used : Nat
  daily_requests_remaining : Int
  reset_in_seconds : Int
  total_requests_all_time : Nat
  last_request : Option Nat
deriving DecidableEq

/-- The `check_limits` route (app.py lines 258 to 271): it performs only reads
(redis GET, redis TTL, a `User` select), so the state component it hands back
is the incoming state, unchanged. -/
def check_limits (now : Nat) (st : IdentityState) :
    IdentityState × LimitStatus :=
  let current_count := redisGet now st.quota
  let ttl := redisTTL now st.quota
  let used := current_count.getD 0
  (st,
   { daily_requests_used := used,
     daily_requests_remaining := (MAX_DAILY_REQUESTS : Int) - (used : Int),
     reset_in_seconds := if ttl > 0 then ttl else 86400,
     total_requests_all_time :=
       match st.user with
       | some u => u.request_count
       | none => 0,
     last_request :=
       match st.user with
       | some u => u.last_request
       | none => none })

/-- C8: the limits endpoint is read-only — the stored state after the call is
exactly the state before it, for every identity — and on an identity with no
quota entry it reports used = 0 and remaining = 100. -/
theorem check_limits_readonly_and_fresh (now : Nat) (st : IdentityState) :
    (check_limits now st).1 = st ∧
    (st.quota = none →
      (check_limits now st).2.daily_requests_used = 0 ∧
      (check_limits now st).2.daily_requests_remaining = 100) := by
  constructor
  · rfl
  · intro hq
    simp [check_limits, hq, redisGet, MAX_DAILY_REQUESTS]

theorem check_limits_readonly_and_fresh_witness :
    (check_limits 5 initState).1 = initState ∧
    (check_limits 5 initState).2.daily_requests_used = 0 ∧
    (check_limits 5 initState).2.daily_requests_remaining = 100 :=
  ⟨(check_limits_readonly_and_fresh 5 initState).1,
   ((check_limits_readonly_and_fresh 5 initState).2 rfl).1,
   ((check_limits_readonly_and_fresh 5 initState).2 rfl).2⟩

/-- The pipeline command `check_limit` queues during its read phase. -/
inductive LimiterWrite
  | setex (now : Nat)
  | incr
  | noop
deriving DecidableEq

/-- The read phase of `check_limit`: the redis GET at line 72 runs OUTSIDE the
pipeline, and the branch taken — and hence the command queued for
`pipe.execute()` — depends only on the value that GET observed. -/
def check_limit_read (now : Nat) (q : Option QuotaEntry) :
    Bool × LimiterWrite :=
  match redisGet now q with
  | none => (false, .setex now)
  | some current_count =>
    if MAX_DAILY_REQUESTS ≤ current_count then (true, .noop)
    else (false, .incr)

/-- `pipe.execute()`: apply the queued command atomically to the store. -/
def applyLimiterWrite : LimiterWrite → Option QuotaEntry → Option QuotaEntry
  | .setex now, _ => redisSetex now 1
  | .incr, q => redisIncr q
  | .noop, q => q

/-- The sequential `check_limit` is exactly its read phase followed
immediately by its own write: the two-phase decomposition used for the
interleaving analysis agrees with the source on every input. -/
theorem check_limit_phases (now : Nat) (q : Option QuotaEntry) :
    check_limit now q =
      ((check_limit_read now q).1,
       applyLimiterWrite (check_limit_read now q).2 q) := by
  cases hg : redisGet now q with
  | none => simp [check_limit, check_limit_read, hg, applyLimiterWrite]
  | some c =>
    by_cases hc : MAX_DAILY_REQUESTS ≤ c <;>
      simp [check_limit, check_limit_read, hg, hc, applyLimiterWrite]

/-- Two concurrent `check_limit` calls for the same identity, interleaved as
read, read, write, write — possible because the GET runs outside the
pipeline. -/
def interleavedPair (now : Nat) (q : Option QuotaEntry) :
    (Bool × Bool) × Option QuotaEntry :=
  let r1 := check_limit_read now q
  let r2 := check_limit_read now q
  ((r1.1, r2.1), applyLimiterWrite r2.2 (applyLimiterWrite r1.2 q))

/-- C9 refutation on concrete runs: with no existing entry, the interleaved
pair yields two Allowed results while the counter ends at 1 (the serialized
pair ends at 2) — a lost increment; and from a counter of 99 the interleaved
pair yields two Allowed results and a counter of 101, exceeding the
per-window maximum of 100.  The check-then-act sequence is therefore not
atomic per identity. -/
theorem check_limit_race_loses_increments :
    interleavedPair 0 none = ((false, false), some ⟨1, WINDOW⟩) ∧
    runChecks none [0, 0] = (2, some ⟨2, WINDOW⟩) ∧
    interleavedPair 0 (some ⟨99, WINDOW⟩) =
      ((false, false), some ⟨101, WINDOW⟩) := by
  refine ⟨?_, ?_, ?_⟩ <;> decide

end VirtualTryon
